import Mathlib

set_option autoImplicit false

/-!
Verification development for the eclsdk client-side resource framework.

It embeds, in Lean, the two source modules
`ecl/security_order/v1/single_firewall.py` (the `SingleFirewall` resource
with its tabular list-response reshaping) and
`ecl/orchestration/v1/_proxy.py` (the orchestration `Proxy` with its
stack verbs and error remapping), together with the parts of the generic
`resource2`/`proxy2` framework that those modules call into; the latter
are not part of the two source files and are modelled from the spec where
needed, each such definition carrying a doc comment saying so.
-/

/-! ## A model of parsed JSON values

Python dicts are association lists keyed by strings; lookups return the
first matching entry (parsed JSON never has duplicate keys).
-/

/-- A parsed JSON value, the result of `resp.json()`. -/
inductive JValue where
  | null
  | bool (b : Bool)
  | str (s : String)
  | num (n : Int)
  | arr (items : List JValue)
  | obj (fields : List (String × JValue))
deriving BEq

/-- Python `row[k]` on a dict: look the key up, `none` models the raised
`KeyError` (or `TypeError` when the value is not a dict). -/
def JValue.lookup : JValue → String → Option JValue
  | .obj fields, k => fields.lookup k
  | _, _ => none

/-- View a JSON value as a list, `none` when it is not an array. -/
def JValue.getArr : JValue → Option (List JValue)
  | .arr items => some items
  | _ => none

/-- View a JSON value as a dict, `none` when it is not an object. -/
def JValue.getObj : JValue → Option (List (String × JValue))
  | .obj fields => some fields
  | _ => none

/-! ## SingleFirewall.list: the tabular reshape

`SingleFirewall.list` walks `body['rows']` and builds, for each row, a
device record from fixed positional offsets into `row['cell']`
(single_firewall.py lines 69-81).
-/

/-- One iteration of the reshaping loop of `SingleFirewall.list`: build the
device mapping from `row['cell'][0]` .. `row['cell'][7]`; `none` models the
`KeyError`/`IndexError` raised when `cell` is missing, not an array, or
shorter than 8. -/
def reshapeRow (row : JValue) : Option JValue :=
  match row.lookup "cell" with
  | none => none
  | some cellVal =>
    match cellVal.getArr with
    | none => none
    | some cells =>
      match cells.get? 0, cells.get? 1, cells.get? 2, cells.get? 3,
            cells.get? 4, cells.get? 5, cells.get? 6, cells.get? 7 with
      | some c0, some c1, some c2, some c3,
        some c4, some c5, some c6, some c7 =>
        some (JValue.obj [("internal_use", c0), ("rows", c1),
          ("host_name", c2), ("menu", c3), ("plan", c4), ("redundancy", c5),
          ("availability_zone", c6), ("zone_name", c7)])
      | _, _, _, _, _, _, _, _ => none

/-- The whole reshaping loop of `SingleFirewall.list`: `devices = []` and a
`for row in body['rows']` appending one reshaped record per row, stopping
with an error as soon as one row fails. -/
def reshapeRows : List JValue → Option (List JValue)
  | [] => some []
  | row :: rest =>
    match reshapeRow row, reshapeRows rest with
    | some d, some ds => some (d :: ds)
    | _, _ => none

/-! ## The generic hydration machinery used by SingleFirewall

`_translate_list_response` (single_firewall.py lines 86-98) is in the
source; the `resource2` helpers it calls are not, and are modelled from
the spec.
-/

/-- An attribute component of a resource instance (its `_body` or
`_header`): the attribute map, keyed by wire-field name, plus the set of
dirty keys. -/
structure Component where
  attributes : String → Option JValue
  dirty : List String

/-- Modelled from the spec: `resource2.Resource._filter_component` filters
a raw component (body or headers) to only the declared attribute names of
the given mapping, discarding unknown keys. -/
def filter_component (component : List (String × JValue))
    (mapping : List String) : List (String × JValue) :=
  component.filter (fun kv => mapping.contains kv.1)

/-- Python `dict.update` on an attribute map: entries of `kvs` override
existing keys, every other key keeps its value. -/
def Component.update (c : Component) (kvs : List (String × JValue)) :
    Component :=
  { c with attributes := fun k =>
      match kvs.lookup k with
      | some v => some v
      | none => c.attributes k }

/-- Modelled from the spec: `clean` clears the dirty flags after a merge. -/
def Component.clean (c : Component) : Component :=
  { c with dirty := [] }

/-- The mutable state of a `SingleFirewall` resource instance: its body
and header components. -/
structure SingleFirewallState where
  body : Component
  header : Component

/-- Modelled from the spec: `resource2.Resource._body_mapping` collects
the declared body attributes; for `SingleFirewall` these are the eleven
`resource2.Body` descriptors of single_firewall.py lines 34-58, keyed by
wire-field name. -/
def singleFirewallBodyMapping : List String :=
  ["tenant_id", "gt_host", "sokind", "locale", "code", "message", "soId",
   "status", "records", "rows", "devices"]

/-- Modelled from the spec: `SingleFirewall` declares no header
attributes, so its header mapping is empty. -/
def singleFirewallHeaderMapping : List String := []

/-- `SingleFirewall.resource_key = None` (single_firewall.py line 20). -/
def singleFirewallResourceKey : Option String := none

/-- The `resource_key` unwrap step of `_translate_list_response`
(single_firewall.py lines 88-89): when the key is declared and present,
replace the body by the sub-dict it names (a dead branch for
`SingleFirewall`, whose `resource_key` is `None`). -/
def unwrapKey (resource_key : Option String)
    (body : List (String × JValue)) : List (String × JValue) :=
  match resource_key with
  | some rk =>
    match body.lookup rk with
    | some v => (v.getObj).getD []
    | none => body
  | none => body

/-- `SingleFirewall._translate_list_response` (single_firewall.py lines
86-98): when `has_body`, unwrap `resource_key`, filter the body to the
declared body attributes, merge into the body component and clean it;
then filter the headers against the header mapping and do the same for
the header component. -/
def translate_list_response (resource_key : Option String)
    (bodyMapping headerMapping : List String)
    (respHeaders : List (String × JValue)) (body : List (String × JValue))
    (has_body : Bool) (st : SingleFirewallState) : SingleFirewallState :=
  let st1 :=
    if has_body then
      { st with body := (st.body.update
          (filter_component (unwrapKey resource_key body) bodyMapping)).clean }
    else st
  { st1 with header := (st1.header.update
      (filter_component respHeaders headerMapping)).clean }

/-! ## SingleFirewall.list end to end -/

/-- An HTTP response as the session collaborator returns it, exposing
`.json()` and `.headers`. -/
structure Response where
  json : JValue
  headers : List (String × JValue)

/-- Modelled from the spec: the session collaborator, exposing
`get_project_id()` and `get(uri, endpoint_filter, headers)`; `get` maps
the request URI to the response the server would return. -/
structure Session where
  project_id : String
  get : String → Response

/-- Python `body.update(\x7b'devices': devices\x7d)` on a parsed dict:
override the key in place when present (keeping its position), append it
otherwise. -/
def dictSet (d : List (String × JValue)) (k : String) (v : JValue) :
    List (String × JValue) :=
  if d.any (fun kv => kv.1 == k) then
    d.map (fun kv => if kv.1 == k then (k, v) else kv)
  else d ++ [(k, v)]

/-- The request URI built by `SingleFirewall.list` (single_firewall.py
lines 62-65). -/
def singleFirewallListUri (tenant_id : String) (locale : Option String) :
    String :=
  let uri := "/API/ScreenEventFGSDeviceGet?tenant_id=" ++ tenant_id
  match locale with
  | some l => uri ++ "&locale=" ++ l
  | none => uri

/-- `SingleFirewall.list` (single_firewall.py lines 61-84) acting on the
state of one resource instance: build the URI from the session's project
id and the optional locale, issue the GET, parse the body, reshape
`body['rows']` into device records, inject the reshaped list under the
`devices` key, then hydrate via `_translate_list_response`. The first
component models a raised exception (`some ()` = the parse/reshape step
failed, before hydration ran); the second is the instance's state when
control leaves the method. -/
def SingleFirewall.listRun (st : SingleFirewallState) (session : Session)
    (locale : Option String) : Option Unit × SingleFirewallState :=
  let tenant_id := session.project_id
  let uri := singleFirewallListUri tenant_id locale
  let resp := session.get uri
  match resp.json.getObj with
  | none => (some (), st)
  | some body =>
    match body.lookup "rows" with
    | none => (some (), st)
    | some rowsVal =>
      match rowsVal.getArr with
      | none => (some (), st)
      | some rows =>
        match reshapeRows rows with
        | none => (some (), st)
        | some devices =>
          let body1 := dictSet body "devices" (JValue.arr devices)
          (none, translate_list_response singleFirewallResourceKey
            singleFirewallBodyMapping singleFirewallHeaderMapping
            resp.headers body1 true st)

/-- A tiny object heap, to speak about object identity: references are
numbers, each holding the state of a `SingleFirewall` instance.
`listRefRun` runs `SingleFirewall.list` on the object behind `self`,
mutating it in place; the returned reference is the method's return value
(`return self`, single_firewall.py line 84). `none` models a propagated
exception, in which case no value is returned. -/
def SingleFirewall.listRefRun (heap : Nat → Option SingleFirewallState)
    (self : Nat) (session : Session) (locale : Option String) :
    Option ((Nat → Option SingleFirewallState) × Nat) :=
  match heap self with
  | none => none
  | some st =>
    match SingleFirewall.listRun st session locale with
    | (some _, _) => none
    | (none, st1) =>
      some (fun r => if r = self then some st1 else heap r, self)

/-- Sample data used by witnesses: the worked tabular payload of the
service. -/
def sampleRow : JValue :=
  JValue.obj [("cell", JValue.arr [JValue.str "0", JValue.str "1",
    JValue.str "host-a", JValue.str "menu", JValue.str "planA",
    JValue.str "0", JValue.str "az1", JValue.str "Zone 1"])]

/-- The device record `sampleRow` reshapes to. -/
def sampleDevice : JValue :=
  JValue.obj [("internal_use", JValue.str "0"), ("rows", JValue.str "1"),
    ("host_name", JValue.str "host-a"), ("menu", JValue.str "menu"),
    ("plan", JValue.str "planA"), ("redundancy", JValue.str "0"),
    ("availability_zone", JValue.str "az1"), ("zone_name", JValue.str "Zone 1")]

/-- A list-response body holding `sampleRow`. -/
def sampleListBody : JValue :=
  JValue.obj [("rows", JValue.arr [sampleRow]), ("records", JValue.num 1)]

/-- A session whose server answers every GET with `sampleListBody`. -/
def sampleSession : Session :=
  { project_id := "tenant-1",
    get := fun _ => { json := sampleListBody, headers := [] } }

/-- A session whose server answers with a body missing the `rows` key. -/
def rowlessSession : Session :=
  { project_id := "tenant-1",
    get := fun _ =>
      { json := JValue.obj [("records", JValue.num 0)], headers := [] } }

/-- A resource instance with no attribute set. -/
def emptyComponent : Component := { attributes := fun _ => none, dirty := [] }

/-- A fresh `SingleFirewall` instance state. -/
def emptyFirewallState : SingleFirewallState :=
  { body := emptyComponent, header := emptyComponent }

/-- C10 witness heap: one object, reference 0, fresh state. -/
def sampleHeap : Nat → Option SingleFirewallState :=
  fun r => if r = 0 then some emptyFirewallState else none

/-- The C10 witness heap after the `list` call on reference 0. -/
def sampleHeapAfter : Nat → Option SingleFirewallState :=
  fun r =>
    if r = 0 then
      some ((SingleFirewall.listRun emptyFirewallState sampleSession none).2)
    else sampleHeap r

/-! ## Orchestration proxy: errors and stack verbs

`_proxy.py` is in the source; the generic `proxy2.BaseProxy` verbs, the
`Stack` resource and the exception classes it uses are not, and are
modelled from the spec.
-/

/-- `ecl.exceptions.NotFoundException`: the generic not-found signal,
with the machine-readable diagnostic fields every ecl exception
carries. -/
structure NotFoundException where
  message : Option String
  details : Option String
  response : Option String
  request_id : Option String
  url : Option String
  method : Option String
  http_status : Option Nat
  cause : Option String

/-- `ecl.exceptions.ResourceNotFound`, as raised by the remapping code of
`Proxy.abandon_stack` (_proxy.py lines 132-137): a message plus the
diagnostic fields copied from the original error. -/
structure ResourceNotFound where
  message : String
  details : Option String
  response : Option String
  request_id : Option String
  url : Option String
  method : Option String
  http_status : Option Nat
  cause : Option String

/-- A stack object, reduced to its identifier. -/
structure Stack where
  id : String

/-- Modelled from the spec: `str(stack)` for a `Stack` object — the
remapped message must carry the caller-supplied identifier, so a stack
object renders with its identifier. -/
def strOfStack (stk : Stack) : String := "Stack " ++ stk.id

/-- The `stack` argument of the stack verbs: an identifier string or a
`Stack` instance. -/
inductive StackRef where
  | byId (s : String)
  | byObj (stk : Stack)

/-- The identifier the caller supplied. -/
def StackRef.ident : StackRef → String
  | .byId s => s
  | .byObj stk => stk.id

/-- The try-block of `Proxy.abandon_stack` (_proxy.py lines 123-126):
resolve a non-`Stack` argument through `get_stack`, then call
`stack.abandon(self.session)`. `getStack` models `self.get_stack`
(modelled from the spec: get by identifier either returns that stack or
signals `NotFoundException`) and `abandonOp` models `stack.abandon`
(modelled from the spec: the action either succeeds or signals
`NotFoundException`). A failure carries the original error together with
`str(stack)` at the point of the raise: the caller's string when
`get_stack` failed (the reassignment never ran), the stack object's
rendering when `abandon` failed. -/
def abandonAttempt (stack : StackRef)
    (getStack : String → Except NotFoundException Stack)
    (abandonOp : Stack → Except NotFoundException Unit) :
    Except (NotFoundException × String) Unit :=
  match stack with
  | .byObj stk =>
    match abandonOp stk with
    | .ok _ => .ok ()
    | .error e => .error (e, strOfStack stk)
  | .byId s =>
    match getStack s with
    | .error e => .error (e, s)
    | .ok stk =>
      match abandonOp stk with
      | .ok _ => .ok ()
      | .error e => .error (e, strOfStack stk)

/-- `Proxy.abandon_stack` (_proxy.py lines 110-137): run the try-block;
on `NotFoundException`, return `None` when `ignore_missing`, else
re-raise as `ResourceNotFound` with the message
"No Stack found for %s" % str(stack) and the original error's diagnostic
fields. -/
def abandon_stack (stack : StackRef) (ignore_missing : Bool)
    (getStack : String → Except NotFoundException Stack)
    (abandonOp : Stack → Except NotFoundException Unit) :
    Except ResourceNotFound Unit :=
  match abandonAttempt stack getStack abandonOp with
  | .ok _ => .ok ()
  | .error (e, srep) =>
    if ignore_missing then .ok ()
    else .error {
      message := "No Stack found for " ++ srep,
      details := e.details, response := e.response,
      request_id := e.request_id, url := e.url, method := e.method,
      http_status := e.http_status, cause := e.cause }

/-- The error surface of `Proxy.validate_template`. -/
inductive ValidateError where
  | invalidRequest (message : String)
  | httpError (http_status : Nat)

/-- Modelled from the spec: `Template.validate` issues exactly one HTTP
call through the session collaborator and returns the server's validation
result, surfacing a non-2xx answer as an `HttpException`; `remote` is the
outcome the server would produce. The second component counts session
invocations. -/
def templateValidate (remote : Except Nat JValue) :
    Except ValidateError JValue × Nat :=
  (match remote with
   | .ok v => .ok v
   | .error s => .error (.httpError s), 1)

/-- `Proxy.validate_template` (_proxy.py lines 301-329): raise
`InvalidRequest` before any network call when both `template` and
`template_url` are `None`; otherwise delegate to `Template.validate`.
The second component counts session invocations. -/
def validate_template (template template_url : Option JValue)
    (remote : Except Nat JValue) : Except ValidateError JValue × Nat :=
  match template, template_url with
  | none, none =>
    (.error (.invalidRequest
      "template_url must be specified when template is None"), 0)
  | _, _ => templateValidate remote

/-- The error surface of `_find`: not found, or more than one match. -/
inductive FindError where
  | notFound (e : ResourceNotFound)
  | duplicate

/-- Modelled from the spec: the generic `proxy2.BaseProxy._find` —
attempt the lookup (get by identifier, falling back to a name-filtered
list); `found` is the list of resources the lookup produces, the empty
list being the not-found condition. Zero matches: return `None` when
`ignore_missing`, else fail with `ResourceNotFound` naming the resource
type and identifier; exactly one: return it; more: `DuplicateResource`. -/
def findGeneric (typeName name_or_id : String) (found : List Stack)
    (ignore_missing : Bool) : Except FindError (Option Stack) :=
  match found with
  | [x] => .ok (some x)
  | [] =>
    if ignore_missing then .ok none
    else .error (.notFound {
      message := "No " ++ typeName ++ " found for " ++ name_or_id,
      details := some ("No " ++ typeName ++ " found for " ++ name_or_id),
      response := none, request_id := none, url := none, method := none,
      http_status := some 404, cause := none })
  | _ => .error .duplicate

/-- `Proxy.find_stack` (_proxy.py lines 42-54): delegate to `_find` on
the `Stack` resource. -/
def find_stack (name_or_id : String) (found : List Stack)
    (ignore_missing : Bool) : Except FindError (Option Stack) :=
  findGeneric "Stack" name_or_id found ignore_missing

/-- Modelled from the spec: the generic `proxy2.BaseProxy._delete` —
issue the DELETE; on the not-found signal return normally when
`ignore_missing`, else raise `ResourceNotFound` naming the resource type
and identifier; `notFound` records whether the server signalled
absence. -/
def deleteGeneric (typeName ident : String) (notFound : Bool)
    (ignore_missing : Bool) : Except ResourceNotFound Unit :=
  if notFound then
    if ignore_missing then .ok ()
    else .error {
      message := "No " ++ typeName ++ " found for " ++ ident,
      details := some ("No " ++ typeName ++ " found for " ++ ident),
      response := none, request_id := none, url := none, method := none,
      http_status := some 404, cause := none }
  else .ok ()

/-- `Proxy.delete_stack` (_proxy.py lines 94-108): delegate to `_delete`
on the `Stack` resource; the method itself returns `None`. -/
def delete_stack (stack : String) (notFound : Bool)
    (ignore_missing : Bool) : Except ResourceNotFound Unit :=
  deleteGeneric "Stack" stack notFound ignore_missing

/-! ## List-verb result shape (C7) -/

/-- A produced sequence of resources: a Python generator (lazy, one-shot)
or a materialized Python list. -/
inductive SeqResult (α : Type) where
  | gen (elems : List α)
  | eager (elems : List α)

/-- One full iteration pass over the object: the elements yielded and the
object as it stands afterwards — a generator is exhausted by the pass, a
list is unchanged. -/
def SeqResult.iterate {α : Type} : SeqResult α → List α × SeqResult α
  | .gen xs => (xs, .gen [])
  | .eager xs => (xs, .eager xs)

/-- Python `list(...)` applied to a sequence: materialize one pass. -/
def SeqResult.toPyList {α : Type} (s : SeqResult α) : List α :=
  s.iterate.1

/-- Modelled from the spec: the generic `proxy2.BaseProxy._list` — a
lazy, finite, one-shot generator that walks the server's pages in order
and yields each page's elements in within-page order, with no reordering
or deduplication; `pages` is the page sequence the server returns. -/
def listGeneric (pages : List (List JValue)) : SeqResult JValue :=
  .gen pages.flatten

/-- `Proxy.stacks` (_proxy.py lines 56-65):
`list(self._list(Stack, paginated=False, **query))` — the generator
`_list` returns is materialized into a list before `stacks` returns. -/
def Proxy.stacks (pages : List (List JValue)) : SeqResult JValue :=
  .eager (listGeneric pages).toPyList

/-! ## Schema identity (C8) -/

/-- One declared attribute of a resource schema: its wire-field name and
its `alternate_id` flag. -/
structure AttrDecl where
  wire : String
  alternate_id : Bool

/-- The body attribute declarations of `SingleFirewall`
(single_firewall.py lines 34-58): only `sokind` carries
`alternate_id=True` (line 41). -/
def singleFirewallAttrs : List AttrDecl :=
  [⟨"tenant_id", false⟩, ⟨"gt_host", false⟩, ⟨"sokind", true⟩,
   ⟨"locale", false⟩, ⟨"code", false⟩, ⟨"message", false⟩,
   ⟨"soId", false⟩, ⟨"status", false⟩, ⟨"records", false⟩,
   ⟨"rows", false⟩, ⟨"devices", false⟩]

/-- Modelled from the spec: `Resource` identity resolution — when an
attribute is flagged alternate-id and holds a value, that value becomes
the resource's identifier instead of any separately-transmitted `id`;
otherwise the explicit `id` is used. -/
def resourceIdentity (schema : List AttrDecl) (idVal : Option JValue)
    (attrs : String → Option JValue) : Option JValue :=
  match schema.find? (fun a => a.alternate_id) with
  | some a =>
    match attrs a.wire with
    | some v => some v
    | none => idVal
  | none => idVal

/-- The sample not-found error the orchestration witnesses reuse. -/
def sampleNotFound : NotFoundException :=
  { message := some "404", details := some "Stack absent on the server",
    response := some "resp-body", request_id := some "req-1",
    url := some "/stacks/stack-1", method := some "GET",
    http_status := some 404, cause := some "not found" }

/-- The attribute map of the C8 witness: only `sokind` is set. -/
def sokindOnlyAttrs : String → Option JValue :=
  fun k => if k = "sokind" then some (JValue.str "A") else none

/-! ## Theorems -/

/-- C1: the reshaping step of `SingleFirewall.list` maps cell offset 0 to
`internal_use`, 1 to `rows`, 2 to `host_name`, 3 to `menu`, 4 to `plan`,
5 to `redundancy`, 6 to `availability_zone`, 7 to `zone_name`; on the body
with the single row whose cells are "0", "1", "host-a", "menu", "planA",
"0", "az1", "Zone 1" it produces exactly one record with those fields. -/
theorem singleFirewall_reshape_positional :
    (∀ (c0 c1 c2 c3 c4 c5 c6 c7 : JValue) (rest : List JValue)
        (extra : List (String × JValue)),
      reshapeRow (JValue.obj (("cell",
          JValue.arr (c0 :: c1 :: c2 :: c3 :: c4 :: c5 :: c6 :: c7 :: rest)) :: extra)) =
        some (JValue.obj [("internal_use", c0), ("rows", c1), ("host_name", c2),
          ("menu", c3), ("plan", c4), ("redundancy", c5),
          ("availability_zone", c6), ("zone_name", c7)])) ∧
    reshapeRows [JValue.obj [("cell", JValue.arr [JValue.str "0", JValue.str "1",
        JValue.str "host-a", JValue.str "menu", JValue.str "planA",
        JValue.str "0", JValue.str "az1", JValue.str "Zone 1"])]] =
      some [JValue.obj [("internal_use", JValue.str "0"), ("rows", JValue.str "1"),
        ("host_name", JValue.str "host-a"), ("menu", JValue.str "menu"),
        ("plan", JValue.str "planA"), ("redundancy", JValue.str "0"),
        ("availability_zone", JValue.str "az1"), ("zone_name", JValue.str "Zone 1")]] := by
  refine ⟨fun c0 c1 c2 c3 c4 c5 c6 c7 rest extra => ?_, rfl⟩
  rfl

/-! ## Association-list lemmas about lookup, dictSet and filter_component -/

theorem lookup_map_overwrite (k : String) (v : JValue) :
    ∀ d : List (String × JValue), (∃ w, (k, w) ∈ d) →
      (d.map (fun kv => if kv.1 == k then (k, v) else kv)).lookup k = some v := by
  intro d
  induction d with
  | nil => rintro ⟨w, hw⟩; simp at hw
  | cons kv t ih =>
    rintro ⟨w, hw⟩
    obtain ⟨k1, v1⟩ := kv
    rw [List.map_cons]
    by_cases hk : k1 = k
    · have hb : ((k1, v1).1 == k) = true := beq_iff_eq.mpr hk
      rw [if_pos hb, List.lookup_cons_self]
    · have hb : ¬(((k1, v1).1 == k) = true) := by simp [hk]
      have hkk : (k == k1) = false := beq_eq_false_iff_ne.mpr (Ne.symm hk)
      rw [if_neg hb, List.lookup_cons, hkk]
      refine ih ⟨w, ?_⟩
      rcases List.mem_cons.mp hw with he | hm
      · exact absurd (congrArg Prod.fst he).symm hk
      · exact hm

theorem lookup_dictSet (d : List (String × JValue)) (k : String) (v : JValue) :
    (dictSet d k v).lookup k = some v := by
  unfold dictSet
  cases hany : d.any (fun kv => kv.1 == k) with
  | true =>
    rw [if_pos rfl]
    refine lookup_map_overwrite k v d ?_
    obtain ⟨x, hx, hxk⟩ := List.any_eq_true.mp hany
    exact ⟨x.2, by rwa [show x = (k, x.2) from Prod.ext (beq_iff_eq.mp hxk) rfl] at hx⟩
  | false =>
    rw [if_neg (by simp), List.lookup_append]
    have hd : d.lookup k = none := by
      refine List.lookup_eq_none_iff.mpr (fun p hp => ?_)
      have := List.any_eq_false.mp hany p hp
      exact bne_iff_ne.mpr (fun e => this (beq_iff_eq.mpr e.symm))
    rw [hd, List.lookup_cons_self]
    rfl

theorem lookup_filter_component (d : List (String × JValue))
    (mapping : List String) (k : String) (h : mapping.contains k = true) :
    (filter_component d mapping).lookup k = d.lookup k := by
  induction d with
  | nil => rfl
  | cons kv t ih =>
    obtain ⟨k1, v1⟩ := kv
    unfold filter_component at ih ⊢
    rw [List.filter_cons]
    by_cases hk : k = k1
    · subst hk
      rw [if_pos (show ((fun kv => mapping.contains kv.1) ((k, v1) : String × JValue)) = true from h)]
      rw [List.lookup_cons_self, List.lookup_cons_self]
    · have hkk : (k == k1) = false := beq_eq_false_iff_ne.mpr hk
      cases hp : mapping.contains k1 with
      | true =>
        rw [if_pos rfl]
        rw [List.lookup_cons, List.lookup_cons, hkk]
        exact ih
      | false =>
        rw [if_neg (by simp)]
        rw [List.lookup_cons (k := k1), hkk]
        exact ih

theorem lookup_filter_component_none (d : List (String × JValue))
    (mapping : List String) (k : String) (h : mapping.contains k = false) :
    (filter_component d mapping).lookup k = none := by
  induction d with
  | nil => rfl
  | cons kv t ih =>
    obtain ⟨k1, v1⟩ := kv
    unfold filter_component at ih ⊢
    rw [List.filter_cons]
    cases hp : mapping.contains k1 with
    | true =>
      have hk : k ≠ k1 := by
        intro e
        rw [e, hp] at h
        exact Bool.noConfusion h
      have hkk : (k == k1) = false := beq_eq_false_iff_ne.mpr hk
      rw [if_pos rfl]
      rw [List.lookup_cons, hkk]
      exact ih
    | false =>
      rw [if_neg (by simp)]
      exact ih

/-! ## Hydration component lemmas -/

theorem Component.update_clean_idem (c : Component)
    (kvs : List (String × JValue)) :
    ((((c.update kvs).clean).update kvs).clean).attributes =
      ((c.update kvs).clean).attributes := by
  funext k
  simp only [Component.update, Component.clean]
  cases kvs.lookup k <;> rfl

/-- C5: whenever the reshaping step of `SingleFirewall.list` succeeds, the
normalized record list is injected back into the body under the `devices`
key before `_translate_list_response` runs, so that after `list` returns
the resource's `devices` attribute is exactly the list of reshaped
records, in input-row order. -/
theorem singleFirewall_list_devices_injection
    (st : SingleFirewallState) (session : Session) (locale : Option String)
    (body : List (String × JValue)) (rows devices : List JValue)
    (hbody : (session.get (singleFirewallListUri session.project_id
        locale)).json.getObj = some body)
    (hrows : body.lookup "rows" = some (JValue.arr rows))
    (hdevices : reshapeRows rows = some devices) :
    (SingleFirewall.listRun st session locale).2.body.attributes "devices" =
      some (JValue.arr devices) := by
  unfold SingleFirewall.listRun
  simp only [hbody, hrows, JValue.getArr, hdevices]
  show ((st.body.update (filter_component
      (dictSet body "devices" (JValue.arr devices))
      singleFirewallBodyMapping)).clean).attributes "devices" =
    some (JValue.arr devices)
  show (match (filter_component (dictSet body "devices" (JValue.arr devices))
      singleFirewallBodyMapping).lookup "devices" with
    | some v => some v
    | none => st.body.attributes "devices") = some (JValue.arr devices)
  rw [lookup_filter_component _ _ _ (by rfl), lookup_dictSet]

/-- C5 witness: running `list` against `sampleSession` on a fresh instance
sets the `devices` attribute to the single reshaped sample record. -/
theorem singleFirewall_list_devices_injection_witness :
    (SingleFirewall.listRun emptyFirewallState sampleSession
        none).2.body.attributes "devices" =
      some (JValue.arr [sampleDevice]) :=
  singleFirewall_list_devices_injection emptyFirewallState sampleSession none
    [("rows", JValue.arr [sampleRow]), ("records", JValue.num 1)]
    [sampleRow] [sampleDevice] rfl rfl rfl

/-- C6: hydration through `_translate_list_response` is idempotent — a
second application with the same response leaves both the body-attribute
map and the header-attribute map unchanged — and it never fails on extra
fields: a key outside the declared body mapping is filtered out and never
appears in (nor disturbs) the resulting attribute map. -/
theorem singleFirewall_translate_idempotent_and_filtering
    (st : SingleFirewallState) (respHeaders body : List (String × JValue))
    (has_body : Bool) :
    ((translate_list_response singleFirewallResourceKey
        singleFirewallBodyMapping singleFirewallHeaderMapping respHeaders
        body has_body
        (translate_list_response singleFirewallResourceKey
          singleFirewallBodyMapping singleFirewallHeaderMapping respHeaders
          body has_body st)).body.attributes =
      (translate_list_response singleFirewallResourceKey
        singleFirewallBodyMapping singleFirewallHeaderMapping respHeaders
        body has_body st).body.attributes ∧
     (translate_list_response singleFirewallResourceKey
        singleFirewallBodyMapping singleFirewallHeaderMapping respHeaders
        body has_body
        (translate_list_response singleFirewallResourceKey
          singleFirewallBodyMapping singleFirewallHeaderMapping respHeaders
          body has_body st)).header.attributes =
      (translate_list_response singleFirewallResourceKey
        singleFirewallBodyMapping singleFirewallHeaderMapping respHeaders
        body has_body st).header.attributes) ∧
    ∀ k, singleFirewallBodyMapping.contains k = false →
      (translate_list_response singleFirewallResourceKey
        singleFirewallBodyMapping singleFirewallHeaderMapping respHeaders
        body has_body st).body.attributes k = st.body.attributes k := by
  cases has_body with
  | false =>
    refine ⟨⟨rfl, ?_⟩, fun k _ => rfl⟩
    exact Component.update_clean_idem st.header
      (filter_component respHeaders singleFirewallHeaderMapping)
  | true =>
    refine ⟨⟨?_, ?_⟩, fun k hk => ?_⟩
    · exact Component.update_clean_idem st.body
        (filter_component body singleFirewallBodyMapping)
    · exact Component.update_clean_idem st.header
        (filter_component respHeaders singleFirewallHeaderMapping)
    · show (match (filter_component body singleFirewallBodyMapping).lookup k with
        | some v => some v
        | none => st.body.attributes k) = st.body.attributes k
      rw [lookup_filter_component_none _ _ _ hk]

/-- C6 witness: at a concrete response whose body holds only an undeclared
key, hydrating twice equals hydrating once and the undeclared key neither
appears nor disturbs the attribute map. -/
theorem singleFirewall_translate_idempotent_and_filtering_witness :
    (translate_list_response singleFirewallResourceKey
        singleFirewallBodyMapping singleFirewallHeaderMapping []
        [("extra_field", JValue.num 1)] true
        emptyFirewallState).body.attributes "extra_field" =
      emptyFirewallState.body.attributes "extra_field" :=
  (singleFirewall_translate_idempotent_and_filtering emptyFirewallState []
    [("extra_field", JValue.num 1)] true).2 "extra_field" rfl

/-! ## Reshape preconditions (C9) and object identity (C10) -/

theorem reshapeRow_some_cells (row : JValue) (d : JValue)
    (h : reshapeRow row = some d) :
    ∃ cells, row.lookup "cell" = some (JValue.arr cells) ∧
      8 ≤ cells.length := by
  unfold reshapeRow at h
  split at h
  · exact absurd h (by simp)
  · rename_i cellVal heq
    split at h
    · exact absurd h (by simp)
    · rename_i cells harr
      have hcv : cellVal = JValue.arr cells := by
        cases cellVal <;> simp_all [JValue.getArr]
      refine ⟨cells, by rw [heq, hcv], ?_⟩
      split at h
      · rename_i h0 h1 h2 h3 h4 h5 h6 h7
        by_contra hlen
        rw [List.get?_eq_none.mpr (by omega)] at h7
        exact Option.noConfusion h7
      · exact absurd h (by simp)

theorem reshapeRows_some_forall (rows : List JValue) (ds : List JValue)
    (h : reshapeRows rows = some ds) :
    ∀ row ∈ rows, ∃ d, reshapeRow row = some d := by
  induction rows generalizing ds with
  | nil => intro row hr; exact absurd hr (List.not_mem_nil _)
  | cons r rs ih =>
    intro row hr
    unfold reshapeRows at h
    rcases hrr : reshapeRow r with _ | d0 <;>
      rcases hrs : reshapeRows rs with _ | ds0 <;>
        rw [hrr, hrs] at h <;> try simp at h
    rcases List.mem_cons.mp hr with rfl | hm
    · exact ⟨d0, hrr⟩
    · exact ih ds0 hrs row hm

/-- C9: the reshaping step of `SingleFirewall.list` is total only under a
precondition: when the call completes without the error branch, the parsed
body was a dict containing the key `rows`, holding an array each of whose
elements carries a `cell` array of length at least 8; and whenever the
error branch is reached, it is reached before hydration ran (the
instance's state is untouched). -/
theorem singleFirewall_list_reshape_precondition
    (st : SingleFirewallState) (session : Session) (locale : Option String) :
    ((SingleFirewall.listRun st session locale).1 = none →
      ∃ body rows,
        (session.get (singleFirewallListUri session.project_id
            locale)).json.getObj = some body ∧
        body.lookup "rows" = some (JValue.arr rows) ∧
        ∀ row ∈ rows, ∃ cells,
          row.lookup "cell" = some (JValue.arr cells) ∧ 8 ≤ cells.length) ∧
    ((SingleFirewall.listRun st session locale).1 ≠ none →
      (SingleFirewall.listRun st session locale).2 = st) := by
  constructor
  · intro hok
    simp only [SingleFirewall.listRun] at hok
    split at hok
    · simp at hok
    · rename_i body hobj
      split at hok
      · simp at hok
      · rename_i rv hrows
        split at hok
        · simp at hok
        · rename_i rows harr
          split at hok
          · simp at hok
          · rename_i devices hdev
            have hrv : rv = JValue.arr rows := by
              cases rv <;> simp_all [JValue.getArr]
            refine ⟨body, rows, hobj, by rw [hrows, hrv], ?_⟩
            intro row hm
            obtain ⟨d0, hd⟩ := reshapeRows_some_forall rows devices hdev row hm
            exact reshapeRow_some_cells row d0 hd
  · intro hne
    have haux : (SingleFirewall.listRun st session locale).1 = none ∨
        (SingleFirewall.listRun st session locale).2 = st := by
      simp only [SingleFirewall.listRun]
      split
      · exact Or.inr rfl
      · split
        · exact Or.inr rfl
        · split
          · exact Or.inr rfl
          · split
            · exact Or.inr rfl
            · exact Or.inl rfl
    rcases haux with h1 | h2
    · exact absurd h1 hne
    · exact h2

/-- C9 witness: on the sample payload the call completes and the
precondition facts hold; on a body missing `rows` the error branch is
reached with the instance state untouched. -/
theorem singleFirewall_list_reshape_precondition_witness :
    (∃ body rows,
      (sampleSession.get (singleFirewallListUri sampleSession.project_id
          none)).json.getObj = some body ∧
      body.lookup "rows" = some (JValue.arr rows) ∧
      ∀ row ∈ rows, ∃ cells,
        row.lookup "cell" = some (JValue.arr cells) ∧ 8 ≤ cells.length) ∧
    (SingleFirewall.listRun emptyFirewallState rowlessSession none).2 =
      emptyFirewallState :=
  ⟨(singleFirewall_list_reshape_precondition emptyFirewallState
      sampleSession none).1 rfl,
   (singleFirewall_list_reshape_precondition emptyFirewallState
      rowlessSession none).2 (fun hcon => Option.noConfusion
        ((show (SingleFirewall.listRun emptyFirewallState rowlessSession
          none).1 = some () from rfl) ▸ hcon))⟩

/-- C10: whenever `SingleFirewall.list` returns a value, that value is the
very reference the method was invoked on — a single resource, mutated in
place by hydration (only the receiver's heap cell changes), not a fresh
object and not a sequence of per-device resources. -/
theorem singleFirewall_list_returns_self
    (heap : Nat → Option SingleFirewallState) (self : Nat)
    (session : Session) (locale : Option String)
    (heap1 : Nat → Option SingleFirewallState) (ret : Nat)
    (h : SingleFirewall.listRefRun heap self session locale =
      some (heap1, ret)) :
    ret = self ∧ ∃ st, heap self = some st ∧
      heap1 self = some ((SingleFirewall.listRun st session locale).2) ∧
      ∀ r, r ≠ self → heap1 r = heap r := by
  unfold SingleFirewall.listRefRun at h
  split at h
  · exact absurd h (by simp)
  · rename_i st hs
    split at h
    · exact absurd h (by simp)
    · rename_i st1 hr
      simp only [Option.some.injEq, Prod.mk.injEq] at h
      obtain ⟨hfun, hret⟩ := h
      refine ⟨hret.symm, st, hs, ?_, ?_⟩
      · rw [← hfun]
        simp [hr]
      · intro r hrne
        rw [← hfun]
        simp [hrne]

/-- C10 witness: the call on reference 0 of `sampleHeap` returns
reference 0 itself, with only that heap cell updated. -/
theorem singleFirewall_list_returns_self_witness :
    (0 : Nat) = 0 ∧ ∃ st, sampleHeap 0 = some st ∧
      sampleHeapAfter 0 =
        some ((SingleFirewall.listRun st sampleSession none).2) ∧
      ∀ r, r ≠ 0 → sampleHeapAfter r = sampleHeap r :=
  singleFirewall_list_returns_self sampleHeap 0 sampleSession none
    sampleHeapAfter 0 rfl

/-! ## Orchestration theorems -/

/-- C2: with both `template` and `template_url` equal to `None`,
`validate_template` raises `InvalidRequest` with zero session calls made;
with at least one of the two supplied, the precondition check raises
nothing — exactly one session call is made and the outcome is never an
`InvalidRequest`. -/
theorem validate_template_precondition
    (template template_url : Option JValue) (remote : Except Nat JValue) :
    (template = none → template_url = none →
      validate_template template template_url remote =
        (.error (.invalidRequest
          "template_url must be specified when template is None"), 0)) ∧
    (template.isSome = true ∨ template_url.isSome = true →
      (validate_template template template_url remote).2 = 1 ∧
      ∀ msg, (validate_template template template_url remote).1 ≠
        .error (.invalidRequest msg)) := by
  constructor
  · rintro rfl rfl
    rfl
  · intro hsome
    cases template with
    | none =>
      cases template_url with
      | none => simp at hsome
      | some t =>
        refine ⟨rfl, fun msg => ?_⟩
        cases remote <;> simp [validate_template, templateValidate]
    | some t =>
      refine ⟨rfl, fun msg => ?_⟩
      cases remote <;> simp [validate_template, templateValidate]

/-- C2 witness: the two sides of the precondition at concrete inputs. -/
theorem validate_template_precondition_witness :
    validate_template none none (.ok JValue.null) =
      (.error (.invalidRequest
        "template_url must be specified when template is None"), 0) ∧
    ((validate_template (some (JValue.str "tmpl")) none
        (.ok JValue.null)).2 = 1 ∧
      ∀ msg, (validate_template (some (JValue.str "tmpl")) none
        (.ok JValue.null)).1 ≠ .error (.invalidRequest msg)) :=
  ⟨(validate_template_precondition none none (.ok JValue.null)).1 rfl rfl,
   (validate_template_precondition (some (JValue.str "tmpl")) none
     (.ok JValue.null)).2 (Or.inl rfl)⟩

/-- C3: when the underlying operation of `Proxy.abandon_stack` signals
not-found: with `ignore_missing` true the call returns `None` and raises
nothing; with `ignore_missing` false it raises `ResourceNotFound` whose
message contains the resource type name "Stack" and the caller-supplied
identifier, and whose details, response, request_id, url, method,
http_status and cause equal those of the original error. -/
theorem abandon_stack_not_found_remap (stack : StackRef)
    (getStack : String → Except NotFoundException Stack)
    (abandonOp : Stack → Except NotFoundException Unit)
    (e : NotFoundException) (srep : String)
    (hget : ∀ s stk, getStack s = .ok stk → stk.id = s)
    (hnf : abandonAttempt stack getStack abandonOp = .error (e, srep)) :
    abandon_stack stack true getStack abandonOp = .ok () ∧
    ∃ rnf, abandon_stack stack false getStack abandonOp = .error rnf ∧
      (∃ a b, rnf.message = a ++ "Stack" ++ b) ∧
      (∃ a b, rnf.message = a ++ stack.ident ++ b) ∧
      rnf.details = e.details ∧ rnf.response = e.response ∧
      rnf.request_id = e.request_id ∧ rnf.url = e.url ∧
      rnf.method = e.method ∧ rnf.http_status = e.http_status ∧
      rnf.cause = e.cause := by
  have hsrep : ∃ a b, srep = a ++ stack.ident ++ b := by
    unfold abandonAttempt at hnf
    split at hnf
    · -- stack = byObj stk
      rename_i stk
      split at hnf
      · simp at hnf
      · rename_i e0 hab
        simp only [Except.error.injEq, Prod.mk.injEq] at hnf
        obtain ⟨he, hs⟩ := hnf
        refine ⟨"Stack ", "", ?_⟩
        rw [← hs]
        simp [strOfStack, StackRef.ident]
    · -- stack = byId s
      rename_i s
      split at hnf
      · rename_i e0 hg
        simp only [Except.error.injEq, Prod.mk.injEq] at hnf
        obtain ⟨he, hs⟩ := hnf
        refine ⟨"", "", ?_⟩
        rw [← hs]
        simp [StackRef.ident]
      · rename_i stk hg
        split at hnf
        · simp at hnf
        · rename_i e0 hab
          simp only [Except.error.injEq, Prod.mk.injEq] at hnf
          obtain ⟨he, hs⟩ := hnf
          have hid := hget s stk hg
          refine ⟨"Stack ", "", ?_⟩
          rw [← hs]
          simp [strOfStack, StackRef.ident, hid]
  constructor
  · unfold abandon_stack
    rw [hnf]
    rfl
  · unfold abandon_stack
    rw [hnf]
    refine ⟨{ message := "No Stack found for " ++ srep,
              details := e.details, response := e.response,
              request_id := e.request_id, url := e.url, method := e.method,
              http_status := e.http_status, cause := e.cause },
      rfl, ?_, ?_, rfl, rfl, rfl, rfl, rfl, rfl, rfl⟩
    · refine ⟨"No ", " found for " ++ srep, ?_⟩
      rw [← String.append_assoc]
      rfl
    · obtain ⟨a, b, hab2⟩ := hsrep
      refine ⟨"No Stack found for " ++ a, b, ?_⟩
      show "No Stack found for " ++ srep =
        "No Stack found for " ++ a ++ stack.ident ++ b
      rw [hab2]
      simp [String.append_assoc]

/-- C3 witness: a concrete `abandon_stack` call on identifier "stack-1"
whose underlying `get_stack` signals not-found. -/
theorem abandon_stack_not_found_remap_witness :
    abandon_stack (StackRef.byId "stack-1") true
        (fun _ => Except.error sampleNotFound) (fun _ => Except.ok ()) =
      Except.ok () ∧
    ∃ rnf, abandon_stack (StackRef.byId "stack-1") false
        (fun _ => Except.error sampleNotFound) (fun _ => Except.ok ()) =
      Except.error rnf ∧
      (∃ a b, rnf.message = a ++ "Stack" ++ b) ∧
      (∃ a b, rnf.message = a ++ (StackRef.byId "stack-1").ident ++ b) ∧
      rnf.details = sampleNotFound.details ∧
      rnf.response = sampleNotFound.response ∧
      rnf.request_id = sampleNotFound.request_id ∧
      rnf.url = sampleNotFound.url ∧
      rnf.method = sampleNotFound.method ∧
      rnf.http_status = sampleNotFound.http_status ∧
      rnf.cause = sampleNotFound.cause :=
  abandon_stack_not_found_remap (StackRef.byId "stack-1")
    (fun _ => Except.error sampleNotFound) (fun _ => Except.ok ())
    sampleNotFound "stack-1"
    (fun _ _ hcon => Except.noConfusion hcon) rfl

/-- C4: the `ignore_missing` truth table for `delete_stack` and
`find_stack` under a not-found condition: with `true` the call returns
`None`/no-ops with no raised error; with `false` it raises
`ResourceNotFound` carrying non-empty details. -/
theorem stack_ignore_missing_truth_table (stack : String) :
    delete_stack stack true true = .ok () ∧
    (∃ rnf, delete_stack stack true false = .error rnf ∧
      ∃ d, rnf.details = some d ∧ d ≠ "") ∧
    find_stack stack [] true = .ok none ∧
    (∃ rnf, find_stack stack [] false = .error (.notFound rnf) ∧
      ∃ d, rnf.details = some d ∧ d ≠ "") := by
  have hne : ("No Stack found for " ++ stack) ≠ "" := by
    intro hcon
    have hd := congrArg String.data hcon
    rw [String.data_append] at hd
    exact absurd (List.append_eq_nil.mp hd).1 (by decide)
  exact ⟨rfl, ⟨_, rfl, "No Stack found for " ++ stack, rfl, hne⟩, rfl,
    ⟨_, rfl, "No Stack found for " ++ stack, rfl, hne⟩⟩

/-- C7 counterexample: the value `Proxy.stacks` returns on a concrete
two-page response is restartable — a second full iteration yields both
elements again, not the empty yield a lazy, one-shot, non-restartable
generator gives (`listGeneric`, third conjunct, shows the contrast) — so
the claim that this layer returns a lazy, non-restartable sequence is
false: `stacks` materializes the generator with `list(...)`. -/
theorem stacks_not_restartable_counterexample :
    (Proxy.stacks [[JValue.str "s1"],
        [JValue.str "s2"]]).iterate.2.iterate.1 =
      [JValue.str "s1", JValue.str "s2"] ∧
    (Proxy.stacks [[JValue.str "s1"],
        [JValue.str "s2"]]).iterate.2.iterate.1 ≠ [] ∧
    (listGeneric [[JValue.str "s1"],
        [JValue.str "s2"]]).iterate.2.iterate.1 = [] := by
  refine ⟨rfl, fun hcon => ?_, rfl⟩
  exact List.noConfusion
    (show [JValue.str "s1", JValue.str "s2"] = ([] : List JValue) from hcon)

/-- C7 amended: `Proxy.stacks` returns an eagerly materialized, finite,
restartable list whose elements preserve server page order and
within-page order, with no reordering or deduplication performed by this
layer. -/
theorem stacks_eager_order_preserving (pages : List (List JValue)) :
    Proxy.stacks pages = SeqResult.eager pages.flatten ∧
    (Proxy.stacks pages).iterate.1 = pages.flatten ∧
    (Proxy.stacks pages).iterate.2.iterate.1 = pages.flatten :=
  ⟨rfl, rfl, rfl⟩

/-- C8: a `SingleFirewall` with the `sokind` alternate-id attribute set
and no explicit `id` resolves its identity to the `sokind` value, and the
schema flags at most one attribute as alternate-id. -/
theorem singleFirewall_alternate_id (attrs : String → Option JValue)
    (v : JValue) (h : attrs "sokind" = some v) :
    resourceIdentity singleFirewallAttrs none attrs = some v ∧
    (singleFirewallAttrs.countP (fun a => a.alternate_id)) ≤ 1 := by
  constructor
  · show (match attrs "sokind" with
      | some v => some v
      | none => none) = some v
    rw [h]
  · decide

/-- C8 witness: an instance holding only `sokind = "A"` resolves its
identity to "A". -/
theorem singleFirewall_alternate_id_witness :
    resourceIdentity singleFirewallAttrs none sokindOnlyAttrs =
      some (JValue.str "A") ∧
    (singleFirewallAttrs.countP (fun a => a.alternate_id)) ≤ 1 :=
  singleFirewall_alternate_id sokindOnlyAttrs (JValue.str "A") rfl
